import Mathlib

set_option maxRecDepth 10000

/-!
Verification of the conversation-state and prompt-assembly logic of the
Article Humanizer application (`app.py`).

The embedding models, directly from the source:
  * the chat message records stored in `st.session_state.chat_history`
    (dictionaries with a `role` string and a `content` string);
  * `humanize_via_groq`, split into its prompt-assembly part
    (`assembleUserPrompt`, `mkPayload`) and its invoke-and-extract part
    (`humanize_via_groq` itself), with the LLM client abstracted as a
    function from the two-message payload to an `Except`-valued response
    (the client may raise);
  * the duck-typed response object (`LLMResponse`): an optional `content`
    field together with its `str(...)` rendering, and the extraction rule
    `response.content if hasattr(response, "content") else str(response)`
    (`responseText`);
  * the two turn-controller branches of the Streamlit script: the initial
    "Polish Article" block (`initialTurn`) and the follow-up refinement
    block (`followUpTurn`).  Each turn function returns the new history,
    the list of payloads sent to the client during the turn, and the
    propagated client error, if any, mirroring the statement order of the
    source (in the initial block both appends happen after the client call
    returns; in the follow-up block the user message is appended first).
-/

/-- One chat-history entry: the Python dict `{"role": ..., "content": ...}`. -/
structure Message where
  role : String
  content : String
deriving DecidableEq

/-- The duck-typed client response: an optional `content` attribute plus the
`str(response)` rendering used as fallback. -/
structure LLMResponse where
  content : Option String
  asString : String
deriving DecidableEq

/-- Python `str.strip()` (no argument): remove leading and trailing
whitespace characters.  Implemented structurally on the character list so
that it evaluates inside the kernel. -/
def pyStrip (s : String) : String :=
  String.mk (((s.data.dropWhile Char.isWhitespace).reverse.dropWhile Char.isWhitespace).reverse)

/-- `response.content if hasattr(response, "content") else str(response)`. -/
def responseText (r : LLMResponse) : String :=
  match r.content with
  | some c => c
  | none => r.asString

/-- The fixed system persona sent with every request. -/
def systemPersona : String :=
  "You are a skilled editor. You polish articles to sound professional and human-like."

/-- The fixed base instruction block of `humanize_via_groq`. -/
def basePromptText : String :=
  "Your job is to act as a **professional humanizer and Grammarly-like editor**. " ++
  "Always fix grammar, spelling, and awkward phrasing. " ++
  "Make the text smooth, natural, and engaging while keeping the meaning unchanged. " ++
  "Do not add new facts.\n\n"

/-- The user-message assembly of `humanize_via_groq`: base block, then the
optional extra-instructions line (added when `instructions.strip()` is
truthy), then the literal text. -/
def assembleUserPrompt (text instructions : String) : String :=
  let base_prompt := basePromptText
  let base_prompt :=
    if pyStrip instructions ≠ "" then
      base_prompt ++ ("⚡ Extra instructions: " ++ pyStrip instructions ++ "\n\n")
    else base_prompt
  base_prompt ++ text

/-- The two-message payload `[("system", ...), ("user", full_prompt)]` passed
to `llm.invoke`. -/
def mkPayload (text instructions : String) : List (String × String) :=
  [(("system" : String), systemPersona), (("user" : String), assembleUserPrompt text instructions)]

/-- `humanize_via_groq`: assemble the payload, invoke the client, extract the
text of the response.  A raising client is modelled by `Except.error`. -/
def humanize_via_groq {ε : Type} (llm : List (String × String) → Except ε LLMResponse)
    (text instructions : String) : Except ε String :=
  (llm (mkPayload text instructions)).map responseText

/-- Outcome of one turn-controller branch: the chat history afterwards, the
payloads sent to the client during the turn, and the propagated client
error, if any. -/
structure TurnResult (ε : Type) where
  history : List Message
  calls : List (List (String × String))
  err : Option ε
deriving DecidableEq

/-- The initial "Polish Article" block: reject a blank (after strip) article
with no state change; otherwise call `humanize_via_groq(llm, original_text)`
and, once it returns, append the user message and then the assistant
message. -/
def initialTurn {ε : Type} (llm : List (String × String) → Except ε LLMResponse)
    (chat_history : List Message) (original_text : String) : TurnResult ε :=
  if pyStrip original_text = "" then
    ⟨chat_history, [], none⟩
  else
    match humanize_via_groq llm original_text ("") with
    | .error e => ⟨chat_history, [mkPayload original_text ("")], some e⟩
    | .ok polished =>
        ⟨chat_history ++ [⟨("user" : String), original_text⟩, ⟨("assistant" : String), polished⟩],
         [mkPayload original_text ("")], none⟩

/-- `last_ai_texts[-1] if last_ai_texts else fallback`, where `last_ai_texts`
filters the assistant-role contents of the history in order. -/
def latestAssistantText (chat_history : List Message) (fallback : String) : String :=
  let last_ai_texts :=
    (chat_history.filter (fun m => m.role = "assistant")).map Message.content
  last_ai_texts.getLast?.getD fallback

/-- The follow-up refinement block (`if follow_up:` guards it, so only the
falsy empty string skips): append the user follow-up first, compute
`latest_text` from the updated history, call
`humanize_via_groq(llm, latest_text, instructions=follow_up)`, and append the
assistant reply once it returns. -/
def followUpTurn {ε : Type} (llm : List (String × String) → Except ε LLMResponse)
    (chat_history : List Message) (follow_up : String) : TurnResult ε :=
  if follow_up = "" then
    ⟨chat_history, [], none⟩
  else
    let h1 := chat_history ++ [⟨("user" : String), follow_up⟩]
    let latest_text := latestAssistantText h1 follow_up
    match humanize_via_groq llm latest_text follow_up with
    | .error e => ⟨h1, [mkPayload latest_text follow_up], some e⟩
    | .ok polished =>
        ⟨h1 ++ [⟨("assistant" : String), polished⟩], [mkPayload latest_text follow_up], none⟩

/-- A client that always succeeds with content `"B"`; used for concrete
evaluations. -/
def okLLM : List (String × String) → Except Unit LLMResponse :=
  fun _ => Except.ok ⟨some ("B"), ("B")⟩

/-- A client that always raises; used for concrete evaluations. -/
def errLLM : List (String × String) → Except Unit LLMResponse :=
  fun _ => Except.error ()

/-- Appending a user-role message does not change the latest assistant text:
the assistant filter ignores it. -/
theorem latestAssistantText_append_user (h : List Message) (f fb : String) :
    latestAssistantText (h ++ [⟨("user" : String), f⟩]) fb = latestAssistantText h fb := by
  simp [latestAssistantText, List.filter_append]

/-- C1: in refinement mode with the most recent assistant message holding
content `A`, submitting follow-up `f` sends the payload assembled from
`text = A` and `instructions = f`, and the history grows by exactly the
user follow-up followed by the assistant reply carrying the client's
returned content. -/
theorem followUp_refinement_turn {ε : Type}
    (llm : List (String × String) → Except ε LLMResponse)
    (history : List Message) (f A : String) (r : LLMResponse)
    (hne : f ≠ "")
    (hA : (List.map Message.content
            (List.filter (fun m => m.role = "assistant") history)).getLast? = some A)
    (hr : llm (mkPayload A f) = Except.ok r) :
    followUpTurn llm history f =
      ⟨history ++ [⟨("user" : String), f⟩, ⟨("assistant" : String), responseText r⟩],
       [mkPayload A f], none⟩ := by
  have hl : latestAssistantText (history ++ [⟨("user" : String), f⟩]) f = A := by
    rw [latestAssistantText_append_user]
    simp [latestAssistantText, hA]
  simp [followUpTurn, hne, hl, humanize_via_groq, hr, Except.map]

/-- Witness for C1 at a concrete history, follow-up and client. -/
theorem followUp_refinement_turn_witness :
    followUpTurn okLLM
        [⟨("user" : String), ("orig" : String)⟩, ⟨("assistant" : String), ("A" : String)⟩]
        ("short")
      = ⟨[⟨("user" : String), ("orig" : String)⟩, ⟨("assistant" : String), ("A" : String)⟩,
          ⟨("user" : String), ("short" : String)⟩, ⟨("assistant" : String), ("B" : String)⟩],
         [mkPayload ("A") ("short")], none⟩ :=
  followUp_refinement_turn okLLM
    [⟨("user" : String), ("orig" : String)⟩, ⟨("assistant" : String), ("A" : String)⟩]
    ("short") ("A") ⟨some ("B"), ("B")⟩ (by decide) (by decide) rfl

/-- C2: in initial mode, a non-blank article and a successful client take the
empty store to exactly a user message with the unmodified article followed by
an assistant message with the returned content; the one payload sent is
assembled from the article with empty instructions. -/
theorem initial_turn_success {ε : Type}
    (llm : List (String × String) → Except ε LLMResponse)
    (article : String) (r : LLMResponse)
    (ht : pyStrip article ≠ "")
    (hr : llm (mkPayload article ("")) = Except.ok r) :
    initialTurn llm [] article =
      ⟨[⟨("user" : String), article⟩, ⟨("assistant" : String), responseText r⟩],
       [mkPayload article ("")], none⟩ := by
  simp [initialTurn, ht, humanize_via_groq, hr, Except.map]

/-- Witness for C2 at a concrete article and client. -/
theorem initial_turn_success_witness :
    initialTurn okLLM [] ("Hello world.")
      = ⟨[⟨("user" : String), ("Hello world." : String)⟩,
          ⟨("assistant" : String), ("B" : String)⟩],
         [mkPayload ("Hello world.") ("")], none⟩ :=
  initial_turn_success okLLM ("Hello world.") ⟨some ("B"), ("B")⟩ (by decide) rfl

/-- C3: in initial mode, an article that is blank after stripping is rejected
with no client call and no change to the store, for any client and any
starting store (hence repeated invalid submissions leave the state
identical). -/
theorem initial_turn_rejects_blank {ε : Type}
    (llm : List (String × String) → Except ε LLMResponse)
    (history : List Message) (article : String)
    (ht : pyStrip article = "") :
    initialTurn llm history article = ⟨history, [], none⟩ := by
  simp [initialTurn, ht]

/-- Witness for C3 at a whitespace-only article. -/
theorem initial_turn_rejects_blank_witness :
    initialTurn okLLM [] ("   ") = ⟨[], [], none⟩ :=
  initial_turn_rejects_blank okLLM [] ("   ") (by decide)

/-- C4: the assembled user message is the fixed base block, then (exactly when
the instructions strip to non-empty) the delimited extra-instructions line
echoing the stripped instructions, then the literal text last; with empty
instructions the part after the base block is the text itself. -/
theorem assemble_shape (t i : String) :
    assembleUserPrompt t i =
        basePromptText ++
          (if pyStrip i = "" then ("" : String)
           else ("⚡ Extra instructions: " ++ pyStrip i ++ "\n\n")) ++ t
      ∧ assembleUserPrompt t ("") = basePromptText ++ t := by
  constructor
  · by_cases hi : pyStrip i = ""
    · simp [assembleUserPrompt, hi]
    · simp [assembleUserPrompt, hi]
  · have h0 : pyStrip ("") = ("" : String) := rfl
    simp [assembleUserPrompt, h0]

/-- C5: whitespace-only instructions assemble exactly as empty instructions:
the extra-instructions block is omitted in both cases. -/
theorem assemble_whitespace_instructions (t i : String) (hi : pyStrip i = "") :
    assembleUserPrompt t i = assembleUserPrompt t ("") := by
  have h0 : pyStrip ("") = ("" : String) := rfl
  simp [assembleUserPrompt, hi, h0]

/-- Witness for C5 at concrete text and whitespace-only instructions. -/
theorem assemble_whitespace_instructions_witness :
    assembleUserPrompt ("hello") ("   ") = assembleUserPrompt ("hello") ("") :=
  assemble_whitespace_instructions ("hello") ("   ") (by decide)

/-- C6: in refinement mode with no assistant message in the store (including
the empty store), the latest text falls back to the follow-up itself, so the
one payload sent is assembled from `text = f` and `instructions = f`. -/
theorem followUp_fallback_no_assistant {ε : Type}
    (llm : List (String × String) → Except ε LLMResponse)
    (history : List Message) (f : String) (r : LLMResponse)
    (hne : f ≠ "")
    (hA : List.filter (fun m => m.role = "assistant") history = [])
    (hr : llm (mkPayload f f) = Except.ok r) :
    followUpTurn llm history f =
      ⟨history ++ [⟨("user" : String), f⟩, ⟨("assistant" : String), responseText r⟩],
       [mkPayload f f], none⟩ := by
  have hl : latestAssistantText (history ++ [⟨("user" : String), f⟩]) f = f := by
    rw [latestAssistantText_append_user]
    simp [latestAssistantText, hA]
  simp [followUpTurn, hne, hl, humanize_via_groq, hr, Except.map]

/-- Witness for C6 at the empty store. -/
theorem followUp_fallback_no_assistant_witness :
    followUpTurn okLLM [] ("redo")
      = ⟨[⟨("user" : String), ("redo" : String)⟩, ⟨("assistant" : String), ("B" : String)⟩],
         [mkPayload ("redo") ("redo")], none⟩ :=
  followUp_fallback_no_assistant okLLM [] ("redo") ⟨some ("B"), ("B")⟩
    (by decide) (by decide) rfl

/-- C7: extracting the assistant text never fails: a present `content` field
is returned unchanged, an absent one falls back to the string form of the
whole response object. -/
theorem responseText_total (c s : String) :
    responseText ⟨some c, s⟩ = c ∧ responseText ⟨none, s⟩ = s :=
  ⟨rfl, rfl⟩

/-- C8: if the client raises during an initial-mode turn, the store is left
completely unchanged — in the source's sequencing both appends happen only
after the call has returned successfully. -/
theorem initial_turn_error_unchanged {ε : Type}
    (llm : List (String × String) → Except ε LLMResponse)
    (history : List Message) (article : String) (e : ε)
    (hr : llm (mkPayload article ("")) = Except.error e) :
    (initialTurn llm history article).history = history := by
  by_cases ht : pyStrip article = ""
  · simp [initialTurn, ht]
  · simp [initialTurn, ht, humanize_via_groq, hr, Except.map]

/-- Witness for C8 with a client that always raises. -/
theorem initial_turn_error_unchanged_witness :
    (initialTurn errLLM [] ("x")).history = [] :=
  initial_turn_error_unchanged errLLM [] ("x") () rfl

/-- C9 counterexample: a refinement-mode turn submitted while the store is
empty takes the store from empty to non-empty, so the NoHistory → HasHistory
transition is not exclusive to initial-mode turns. -/
theorem empty_store_followUp_transition :
    (followUpTurn okLLM [] ("hi")).history =
      [⟨("user" : String), ("hi" : String)⟩, ⟨("assistant" : String), ("B" : String)⟩] := by
  decide

/-- C9 (amended): both turn operations only ever append — the input history
is an initial segment of the output history — and a non-empty store never
becomes empty again. -/
theorem store_append_only {ε : Type}
    (llm : List (String × String) → Except ε LLMResponse)
    (h : List Message) (s : String) :
    (∃ t, (initialTurn llm h s).history = h ++ t)
    ∧ (∃ t, (followUpTurn llm h s).history = h ++ t)
    ∧ (h ≠ [] → (initialTurn llm h s).history ≠ [])
    ∧ (h ≠ [] → (followUpTurn llm h s).history ≠ []) := by
  have hi : ∃ t, (initialTurn llm h s).history = h ++ t := by
    by_cases ht : pyStrip s = ""
    · exact ⟨[], by simp [initialTurn, ht]⟩
    · cases hres : humanize_via_groq llm s ("") with
      | error e => exact ⟨[], by simp [initialTurn, ht, hres]⟩
      | ok polished =>
          exact ⟨[⟨("user" : String), s⟩, ⟨("assistant" : String), polished⟩],
                 by simp [initialTurn, ht, hres]⟩
  have hf : ∃ t, (followUpTurn llm h s).history = h ++ t := by
    by_cases hs : s = ""
    · exact ⟨[], by simp [followUpTurn, hs]⟩
    · cases hres : humanize_via_groq llm
          (latestAssistantText (h ++ [⟨("user" : String), s⟩]) s) s with
      | error e =>
          exact ⟨[⟨("user" : String), s⟩], by simp [followUpTurn, hs, hres]⟩
      | ok polished =>
          exact ⟨[⟨("user" : String), s⟩, ⟨("assistant" : String), polished⟩],
                 by simp [followUpTurn, hs, hres]⟩
  refine ⟨hi, hf, ?_, ?_⟩
  · intro hne
    obtain ⟨t, ht⟩ := hi
    rw [ht]
    simp [hne]
  · intro hne
    obtain ⟨t, ht⟩ := hf
    rw [ht]
    simp [hne]

/-- Witness for C9 (amended) at a concrete client, store and input. -/
theorem store_append_only_witness :
    (∃ t, (initialTurn okLLM [] ("x")).history = [] ++ t)
    ∧ (∃ t, (followUpTurn okLLM [] ("x")).history = [] ++ t)
    ∧ (([] : List Message) ≠ [] → (initialTurn okLLM [] ("x")).history ≠ [])
    ∧ (([] : List Message) ≠ [] → (followUpTurn okLLM [] ("x")).history ≠ []) :=
  store_append_only okLLM [] ("x")

/-- C10: refinement mode performs no emptiness validation: a non-empty but
whitespace-only follow-up still runs a full turn — the raw follow-up is
appended as the user message, the client is invoked once with a payload whose
extra-instructions block is omitted (the instructions strip to empty), and
the assistant reply is appended; only the exactly-empty string skips the
turn. -/
theorem followUp_whitespace_turn {ε : Type}
    (llm : List (String × String) → Except ε LLMResponse)
    (history : List Message) (f : String) (r : LLMResponse)
    (hne : f ≠ "") (hws : pyStrip f = "")
    (hr : llm (mkPayload (latestAssistantText history f) f) = Except.ok r) :
    followUpTurn llm history f =
      ⟨history ++ [⟨("user" : String), f⟩, ⟨("assistant" : String), responseText r⟩],
       [mkPayload (latestAssistantText history f) f], none⟩
    ∧ assembleUserPrompt (latestAssistantText history f) f
        = assembleUserPrompt (latestAssistantText history f) ("")
    ∧ followUpTurn llm history ("") = ⟨history, [], none⟩ := by
  have hl := latestAssistantText_append_user history f f
  refine ⟨?_, ?_, ?_⟩
  · simp [followUpTurn, hne, hl, humanize_via_groq, hr, Except.map]
  · have h0 : pyStrip ("") = ("" : String) := rfl
    simp [assembleUserPrompt, hws, h0]
  · simp [followUpTurn]

/-- Witness for C10 at the empty store and a whitespace-only follow-up. -/
theorem followUp_whitespace_turn_witness :
    followUpTurn okLLM [] ("   ")
      = ⟨[⟨("user" : String), ("   " : String)⟩, ⟨("assistant" : String), ("B" : String)⟩],
         [mkPayload (latestAssistantText [] ("   ")) ("   ")], none⟩
    ∧ assembleUserPrompt (latestAssistantText [] ("   ")) ("   ")
        = assembleUserPrompt (latestAssistantText [] ("   ")) ("")
    ∧ followUpTurn okLLM [] ("") = ⟨[], [], none⟩ :=
  followUp_whitespace_turn okLLM [] ("   ") ⟨some ("B"), ("B")⟩
    (by decide) (by decide) rfl
